import Mathlib

/-!
Verification of the multi-viewport camera/render coordination layer of the
PepperGhostEffect repository, shallowly embedded from
`src/core/CameraManager.js` and `src/core/RenderManager.js`.

JavaScript numbers are modelled as exact rationals (`ℚ`); decimal literals
such as `3.3`, `1.5` and `1.7` from the source are the corresponding exact
rationals.  Trigonometric camera positions are stated over `ℝ` by
instantiating field-generic definitions with `Real.sin`, `Real.cos` and
`Real.pi`.
-/

/-- A 3D vector over a scalar type, the shape of `THREE.Vector3` as used by
`CameraManager` (`lookAtTarget`, `camera.position`). -/
structure Vec3 (K : Type) where
  x : K
  y : K
  z : K
deriving DecidableEq, Repr

/-- Componentwise coercion of a rational vector into another scalar type. -/
def Vec3.map {K : Type} (f : ℚ → K) (v : Vec3 ℚ) : Vec3 K :=
  ⟨f v.x, f v.y, f v.z⟩

/-- `THREE.MathUtils.degToRad`: degrees · π / 180. `pi` is passed explicitly
so the definition stays field-generic (instantiated with `Real.pi`). -/
def degToRad {K : Type} [Field K] (pi deg : K) : K := deg * pi / 180

/-- Squared Euclidean distance between two vectors. -/
def sqDist {K : Type} [Field K] (a b : Vec3 K) : K :=
  (a.x - b.x) ^ 2 + (a.y - b.y) ^ 2 + (a.z - b.z) ^ 2

/-- One entry of the `cameraConfigs` table in `CameraManager.setupCameras`:
a name plus yaw and roll angles in degrees. -/
structure CameraConfig where
  name : String
  yaw : ℚ
  roll : ℚ
deriving DecidableEq, Repr

/-- The `cameraConfigs` table of the `'pepper-ghost'` (CROSS_VIEW) branch of
`setupCameras` (`CameraManager.js` lines 61-66). -/
def crossViewConfigs : List CameraConfig :=
  [⟨"Back", 0, 0⟩, ⟨"Front", 180, 180⟩, ⟨"Left", 90, -90⟩, ⟨"Right", 270, 90⟩]

/-- The `cameraConfigs` table of the `'unified-front'` (UNIFIED_FRONT) branch
of `setupCameras` (`CameraManager.js` lines 52-57). -/
def unifiedFrontConfigs : List CameraConfig :=
  [⟨"Back", 180, 0⟩, ⟨"Front", 180, 180⟩, ⟨"Left", 180, -90⟩, ⟨"Right", 180, 90⟩]

/-- Selection of the config table by the `quadrantMode` string
(`if (this.quadrantMode === 'unified-front') ... else ...`). -/
def configsFor (quadrantMode : String) : List CameraConfig :=
  if quadrantMode = "unified-front" then unifiedFrontConfigs else crossViewConfigs

/-- A quadrant camera as produced by `setupCameras`: its config entry plus the
shared pitch, distance and look-at target that were baked into its position
at setup time (the position itself is a function of these, see
`QuadCamera.position`). -/
structure QuadCamera where
  config : CameraConfig
  pitch : ℚ
  distance : ℚ
  target : Vec3 ℚ
deriving DecidableEq, Repr

/-- The camera position computed at `CameraManager.js` lines 74-77:
`target + distance * (sin(yaw)cos(pitch), sin(pitch), cos(yaw)cos(pitch))`,
with yaw and pitch converted from degrees by `degToRad`.  Field-generic:
`sin`/`cos`/`pi` are parameters, `f` casts the stored rationals. -/
def sphericalPosition {K : Type} [Field K] (sin cos : K → K) (pi : K)
    (target : Vec3 K) (distance yawDeg pitchDeg : K) : Vec3 K :=
  let yawRad := degToRad pi yawDeg
  let pitchRad := degToRad pi pitchDeg
  ⟨target.x + distance * sin yawRad * cos pitchRad,
   target.y + distance * sin pitchRad,
   target.z + distance * cos yawRad * cos pitchRad⟩

/-- Position of a quadrant camera (instantiates `sphericalPosition` with the
parameters stored by `setupCameras`). -/
def QuadCamera.position {K : Type} [Field K] (sin cos : K → K) (pi : K)
    (f : ℚ → K) (c : QuadCamera) : Vec3 K :=
  sphericalPosition sin cos pi (c.target.map f) (f c.distance) (f c.config.yaw) (f c.pitch)

/-- The single orbit camera: `userCameraState` snapshot plus target, as
placed by `updateSingleCameraFromState` (`CameraManager.js` lines 119-134). -/
structure SingleCamera where
  pitch : ℚ
  yaw : ℚ
  distance : ℚ
  target : Vec3 ℚ
deriving DecidableEq, Repr

/-- Position of the single orbit camera (`CameraManager.js` lines 129-131:
the same spherical-to-Cartesian formula as the quadrant cameras). -/
def SingleCamera.position {K : Type} [Field K] (sin cos : K → K) (pi : K)
    (f : ℚ → K) (c : SingleCamera) : Vec3 K :=
  sphericalPosition sin cos pi (c.target.map f) (f c.distance) (f c.yaw) (f c.pitch)

/-- The `userCameraState` record of `CameraManager` (pitch/yaw in degrees,
distance from origin). -/
structure UserCameraState where
  pitch : ℚ
  yaw : ℚ
  distance : ℚ
deriving DecidableEq, Repr

/-- The mutable state of a `CameraManager` instance. -/
structure CameraManager where
  cameras : List QuadCamera
  singleCamera : Option SingleCamera
  distance : ℚ
  lookAtTarget : Vec3 ℚ
  userCameraState : UserCameraState
  quadrantMode : String
deriving DecidableEq, Repr

/-- `CameraManager.setupCameras` (lines 28-90): rebuilds the 4 quadrant
cameras from the yaw/roll table of the current `quadrantMode`, the user
pitch, the shared distance and the look-at target. -/
def setupCameras (m : CameraManager) : CameraManager :=
  { m with cameras := (configsFor m.quadrantMode).map (fun c =>
      ⟨c, m.userCameraState.pitch, m.distance, m.lookAtTarget⟩) }

/-- `CameraManager.updateSingleCameraFromState` (lines 119-134): if a single
camera exists, reposition it from `userCameraState` and the target. -/
def updateSingleCameraFromState (m : CameraManager) : CameraManager :=
  match m.singleCamera with
  | none => m
  | some _ =>
    let sc : SingleCamera :=
      ⟨m.userCameraState.pitch, m.userCameraState.yaw,
       m.userCameraState.distance, m.lookAtTarget⟩
    { m with singleCamera := some sc }

/-- `CameraManager.setupSingleCamera` (lines 106-117): overwrites
`userCameraState.distance` with `this.distance * 1.7`, creates the single
camera and initializes it from state. -/
def setupSingleCamera (m : CameraManager) : CameraManager :=
  let singleViewDistance := m.distance * 1.7
  updateSingleCameraFromState
    { m with
      userCameraState := { m.userCameraState with distance := singleViewDistance },
      singleCamera := some ⟨0, 0, 0, ⟨0, 0, 0⟩⟩ }

/-- The `CameraManager` constructor (lines 4-26): defaults
`initialPitch = 20`, `initialDistance = 3.5`, target `(0,0,0)`, mode
`'pepper-ghost'`, then `setupCameras(); setupSingleCamera()`. -/
def CameraManager.new (initialPitch initialDistance : ℚ) : CameraManager :=
  setupSingleCamera (setupCameras
    { cameras := []
      singleCamera := none
      distance := initialDistance
      lookAtTarget := ⟨0, 0, 0⟩
      userCameraState := ⟨initialPitch, 0, initialDistance⟩
      quadrantMode := "pepper-ghost" })

/-- `CameraManager.updateDistance` (lines 92-97): stores the new distance in
both `this.distance` and `userCameraState.distance` (no validation), then
recomputes all cameras. -/
def updateDistance (m : CameraManager) (distance : ℚ) : CameraManager :=
  updateSingleCameraFromState (setupCameras
    { m with
      distance := distance
      userCameraState := { m.userCameraState with distance := distance } })

/-- `CameraManager.rotateSingleCamera` (lines 136-149): accumulate yaw,
subtract the pitch delta (inverted Y-axis), clamp pitch to [-30, 60], then
update the single camera and rebuild the quadrant cameras. -/
def rotateSingleCamera (m : CameraManager) (deltaYaw deltaPitch : ℚ) : CameraManager :=
  let pitch1 := m.userCameraState.pitch - deltaPitch
  let pitch2 := max (-30) (min 60 pitch1)
  setupCameras (updateSingleCameraFromState
    { m with userCameraState :=
        { m.userCameraState with
          yaw := m.userCameraState.yaw + deltaYaw
          pitch := pitch2 } })

/-- `CameraManager.setQuadrantMode` (lines 196-211): reject invalid mode
strings, no-op when the mode is unchanged, otherwise store the mode and
rebuild the quadrant cameras; the Bool is the JS return value. -/
def setQuadrantMode (m : CameraManager) (mode : String) : Bool × CameraManager :=
  if mode ≠ "pepper-ghost" ∧ mode ≠ "unified-front" then (false, m)
  else if m.quadrantMode = mode then (false, m)
  else (true, setupCameras { m with quadrantMode := mode })

/-- `CameraManager.getCameras` (lines 151-153). -/
def getCameras (m : CameraManager) : List QuadCamera := m.cameras

/-- A screen-space viewport rectangle `{x, y, width, height}` in pixels. -/
structure Viewport where
  x : ℚ
  y : ℚ
  width : ℚ
  height : ℚ
deriving DecidableEq, Repr

/-- Center point of a viewport rectangle. -/
def Viewport.center (v : Viewport) : ℚ × ℚ :=
  (v.x + v.width / 2, v.y + v.height / 2)

/-- The `viewports` array computed inside `RenderManager.renderQuadrants`
(`RenderManager.js` lines 86-104): `viewSize = min(w,h)/3.3` and the four
squares of the centered cross layout, in the order Top, Bottom, Left,
Right. -/
def computeQuadrantViewports (w h : ℚ) : List Viewport :=
  let centerX := w / 2
  let centerY := h / 2
  let viewSize := min w h / 3.3
  [⟨centerX - viewSize / 2, centerY + viewSize / 2, viewSize, viewSize⟩,
   ⟨centerX - viewSize / 2, centerY - viewSize * 1.5, viewSize, viewSize⟩,
   ⟨centerX - viewSize * 1.5, centerY - viewSize / 2, viewSize, viewSize⟩,
   ⟨centerX + viewSize / 2, centerY - viewSize / 2, viewSize, viewSize⟩]

/-- `RenderManager.renderQuadrants` (lines 80-150), modelled on its
observable render behaviour: the scene is opaque (`Option Unit`, `none` for
a missing scene), `cameras` is the possibly-missing JS array whose entries
may themselves be null.  Validation (lines 81-84) errors out when the scene
or array is missing or the array length is not 4; the render loop (lines
118-149) draws viewport `i` through camera `i`, skipping a null camera
(`if (!camera) continue`).  The result lists the (viewport, camera) draws
that were issued (the source floors each rectangle before handing it to the
GPU; the flooring does not affect which draws happen). -/
def renderQuadrants {α : Type} (scene : Option Unit)
    (cameras : Option (List (Option α))) (w h : ℚ) :
    Except String (List (Viewport × α)) :=
  match scene, cameras with
  | some _, some cams =>
    if cams.length = 4 then
      Except.ok (((computeQuadrantViewports w h).zip cams).filterMap
        fun vc => vc.2.map fun c => (vc.1, c))
    else Except.error "Invalid scene or cameras for rendering"
  | _, _ => Except.error "Invalid scene or cameras for rendering"

/-- Folding a sequence of `rotateSingleCamera` calls (the spec's "every
sequence of rotateBy inputs") over a manager state. -/
def applyRotations (m : CameraManager) (seq : List (ℚ × ℚ)) : CameraManager :=
  seq.foldl (fun s p => rotateSingleCamera s p.1 p.2) m

@[simp] lemma setupCameras_userCameraState (m : CameraManager) :
    (setupCameras m).userCameraState = m.userCameraState := rfl

@[simp] lemma setupCameras_lookAtTarget (m : CameraManager) :
    (setupCameras m).lookAtTarget = m.lookAtTarget := rfl

@[simp] lemma setupCameras_distance (m : CameraManager) :
    (setupCameras m).distance = m.distance := rfl

@[simp] lemma setupCameras_quadrantMode (m : CameraManager) :
    (setupCameras m).quadrantMode = m.quadrantMode := rfl

@[simp] lemma setupCameras_singleCamera (m : CameraManager) :
    (setupCameras m).singleCamera = m.singleCamera := rfl

lemma setupCameras_cameras (m : CameraManager) :
    (setupCameras m).cameras = (configsFor m.quadrantMode).map (fun c =>
      ⟨c, m.userCameraState.pitch, m.distance, m.lookAtTarget⟩) := rfl

@[simp] lemma updateSingleCameraFromState_cameras (m : CameraManager) :
    (updateSingleCameraFromState m).cameras = m.cameras := by
  unfold updateSingleCameraFromState
  cases m.singleCamera <;> rfl

@[simp] lemma updateSingleCameraFromState_userCameraState (m : CameraManager) :
    (updateSingleCameraFromState m).userCameraState = m.userCameraState := by
  unfold updateSingleCameraFromState
  cases m.singleCamera <;> rfl

@[simp] lemma updateSingleCameraFromState_lookAtTarget (m : CameraManager) :
    (updateSingleCameraFromState m).lookAtTarget = m.lookAtTarget := by
  unfold updateSingleCameraFromState
  cases m.singleCamera <;> rfl

@[simp] lemma updateSingleCameraFromState_distance (m : CameraManager) :
    (updateSingleCameraFromState m).distance = m.distance := by
  unfold updateSingleCameraFromState
  cases m.singleCamera <;> rfl

@[simp] lemma updateSingleCameraFromState_quadrantMode (m : CameraManager) :
    (updateSingleCameraFromState m).quadrantMode = m.quadrantMode := by
  unfold updateSingleCameraFromState
  cases m.singleCamera <;> rfl

lemma updateSingleCameraFromState_singleCamera (m : CameraManager)
    (sc : SingleCamera) (h : m.singleCamera = some sc) :
    (updateSingleCameraFromState m).singleCamera =
      some ⟨m.userCameraState.pitch, m.userCameraState.yaw,
            m.userCameraState.distance, m.lookAtTarget⟩ := by
  unfold updateSingleCameraFromState
  rw [h]

lemma configsFor_length (mode : String) : (configsFor mode).length = 4 := by
  unfold configsFor
  split <;> rfl

/-- Claim C1: for every canvas size (w, h) with w > 0 and h > 0, the
quadrant render computes exactly 4 viewport rectangles, each a square of
side length min(w,h)/3.3, placed at Top = (w/2 - side/2, h/2 + side/2),
Bottom = (w/2 - side/2, h/2 - 1.5·side), Left = (w/2 - 1.5·side,
h/2 - side/2), Right = (w/2 + side/2, h/2 - side/2); the set of their
centers is symmetric about the canvas center (w/2, h/2), and for an
800x600 canvas the Top rectangle is (400 - side/2, 300 + side/2, side,
side) with side = 600/3.3. -/
theorem computeQuadrantViewports_cross_layout (w h : ℚ) (hw : 0 < w) (hh : 0 < h) :
    (computeQuadrantViewports w h).length = 4 ∧
    computeQuadrantViewports w h =
      [⟨w / 2 - (min w h / 3.3) / 2, h / 2 + (min w h / 3.3) / 2,
        min w h / 3.3, min w h / 3.3⟩,
       ⟨w / 2 - (min w h / 3.3) / 2, h / 2 - 1.5 * (min w h / 3.3),
        min w h / 3.3, min w h / 3.3⟩,
       ⟨w / 2 - 1.5 * (min w h / 3.3), h / 2 - (min w h / 3.3) / 2,
        min w h / 3.3, min w h / 3.3⟩,
       ⟨w / 2 + (min w h / 3.3) / 2, h / 2 - (min w h / 3.3) / 2,
        min w h / 3.3, min w h / 3.3⟩] ∧
    (∀ v ∈ computeQuadrantViewports w h,
      v.width = min w h / 3.3 ∧ v.height = min w h / 3.3) ∧
    (∀ v ∈ computeQuadrantViewports w h, ∃ u ∈ computeQuadrantViewports w h,
      u.center.1 = w - v.center.1 ∧ u.center.2 = h - v.center.2) ∧
    (computeQuadrantViewports 800 600).head? =
      some ⟨400 - (600 / 3.3) / 2, 300 + (600 / 3.3) / 2, 600 / 3.3, 600 / 3.3⟩ := by
  have e : (1.5 : ℚ) * (min w h / 3.3) = min w h / 3.3 * 1.5 := by ring
  refine ⟨rfl, ?_, ?_, ?_, ?_⟩
  · rw [e]
    rfl
  · intro v hv
    simp only [computeQuadrantViewports, List.mem_cons, List.not_mem_nil, or_false] at hv
    rcases hv with h0 | h1 | h2 | h3 <;> subst_vars <;> exact ⟨rfl, rfl⟩
  · intro v hv
    simp only [computeQuadrantViewports, List.mem_cons, List.not_mem_nil, or_false] at hv
    rcases hv with h0 | h1 | h2 | h3 <;> subst_vars
    · refine ⟨⟨w / 2 - min w h / 3.3 / 2, h / 2 - min w h / 3.3 * 1.5,
        min w h / 3.3, min w h / 3.3⟩, by simp [computeQuadrantViewports], ?_, ?_⟩ <;>
        · simp only [Viewport.center]
          ring
    · refine ⟨⟨w / 2 - min w h / 3.3 / 2, h / 2 + min w h / 3.3 / 2,
        min w h / 3.3, min w h / 3.3⟩, by simp [computeQuadrantViewports], ?_, ?_⟩ <;>
        · simp only [Viewport.center]
          ring
    · refine ⟨⟨w / 2 + min w h / 3.3 / 2, h / 2 - min w h / 3.3 / 2,
        min w h / 3.3, min w h / 3.3⟩, by simp [computeQuadrantViewports], ?_, ?_⟩ <;>
        · simp only [Viewport.center]
          ring
    · refine ⟨⟨w / 2 - min w h / 3.3 * 1.5, h / 2 - min w h / 3.3 / 2,
        min w h / 3.3, min w h / 3.3⟩, by simp [computeQuadrantViewports], ?_, ?_⟩ <;>
        · simp only [Viewport.center]
          ring
  · norm_num [computeQuadrantViewports]

/-- Witness for C1 at the concrete 800x600 canvas of the spec scenario. -/
theorem computeQuadrantViewports_cross_layout_witness :
    (computeQuadrantViewports 800 600).length = 4 :=
  (computeQuadrantViewports_cross_layout 800 600 (by norm_num) (by norm_num)).1

/-- Claim C9: for every state and every input (deltaYaw, deltaPitch),
`rotateSingleCamera` sets the new yaw to yaw + deltaYaw but the new pitch to
clamp(pitch - deltaPitch, -30, 60): the pitch delta is applied with inverted
sign, so rotateBy(0, +10) from pitch 20 yields pitch 10, not 30. -/
theorem rotateSingleCamera_inverted_pitch (m : CameraManager) (deltaYaw deltaPitch : ℚ) :
    ((rotateSingleCamera m deltaYaw deltaPitch).userCameraState.yaw =
      m.userCameraState.yaw + deltaYaw ∧
     (rotateSingleCamera m deltaYaw deltaPitch).userCameraState.pitch =
      max (-30) (min 60 (m.userCameraState.pitch - deltaPitch))) ∧
    (rotateSingleCamera (CameraManager.new 20 3.5) 0 10).userCameraState.pitch = 10 := by
  constructor
  · constructor <;> simp [rotateSingleCamera]
  · norm_num [rotateSingleCamera, CameraManager.new, setupSingleCamera,
      setupCameras, updateSingleCameraFromState]

/-- Amended claim C8: `updateDistance` performs no validation at all: for
every input d (including non-positive d) it silently stores d as both the
shared distance and `userCameraState.distance` and recomputes all quadrant
cameras with that distance; it neither clamps nor rejects. -/
theorem updateDistance_no_validation (m : CameraManager) (d : ℚ) :
    (updateDistance m d).distance = d ∧
    (updateDistance m d).userCameraState.distance = d ∧
    ∀ c ∈ (updateDistance m d).cameras, c.distance = d := by
  refine ⟨by simp [updateDistance], by simp [updateDistance], ?_⟩
  intro c hc
  simp only [updateDistance, updateSingleCameraFromState_cameras,
    setupCameras_cameras, List.mem_map] at hc
  obtain ⟨cfg, -, rfl⟩ := hc
  rfl

/-- Counterexample for claim C8 as stated: `updateDistance(-1)` on a freshly
constructed manager silently accepts the non-positive value -1, storing it
verbatim; no error, clamp, or substitution happens. -/
theorem updateDistance_accepts_nonpositive_cex :
    ((-1 : ℚ) ≤ 0) ∧
    (updateDistance (CameraManager.new 20 3.5) (-1)).distance = -1 ∧
    (updateDistance (CameraManager.new 20 3.5) (-1)).userCameraState.distance = -1 := by
  refine ⟨by norm_num, ?_, ?_⟩ <;> rfl

/-- The clamp `Math.max(-30, Math.min(60, x))` of `rotateSingleCamera`
always lands in [-30, 60]. -/
lemma clamp_pitch_mem (x : ℚ) :
    -30 ≤ max (-30) (min 60 x) ∧ max (-30) (min 60 x) ≤ 60 :=
  ⟨le_max_left _ _, max_le (by norm_num) (min_le_left _ _)⟩

/-- Claim C4: the orbit-camera pitch stays in [-30, 60] under every sequence
of `rotateSingleCamera` calls: for every starting pitch in range and every
sequence of (deltaYaw, deltaPitch) inputs, the final pitch is still in
[-30, 60] (each call clamps), while yaw accumulates without bound: the
final yaw is the initial yaw plus the sum of all yaw deltas. -/
theorem rotateSingleCamera_pitch_invariant (m : CameraManager)
    (h1 : -30 ≤ m.userCameraState.pitch) (h2 : m.userCameraState.pitch ≤ 60)
    (seq : List (ℚ × ℚ)) :
    -30 ≤ (applyRotations m seq).userCameraState.pitch ∧
    (applyRotations m seq).userCameraState.pitch ≤ 60 ∧
    (applyRotations m seq).userCameraState.yaw =
      m.userCameraState.yaw + (seq.map Prod.fst).sum := by
  induction seq generalizing m with
  | nil => exact ⟨h1, h2, by simp [applyRotations]⟩
  | cons p rest ih =>
    have hstep : applyRotations m (p :: rest) =
        applyRotations (rotateSingleCamera m p.1 p.2) rest := rfl
    have hclamp := clamp_pitch_mem (m.userCameraState.pitch - p.2)
    have hpitch : (rotateSingleCamera m p.1 p.2).userCameraState.pitch =
        max (-30) (min 60 (m.userCameraState.pitch - p.2)) := by
      simp [rotateSingleCamera]
    have hyaw : (rotateSingleCamera m p.1 p.2).userCameraState.yaw =
        m.userCameraState.yaw + p.1 := by
      simp [rotateSingleCamera]
    have := ih (rotateSingleCamera m p.1 p.2)
      (by rw [hpitch]; exact hclamp.1) (by rw [hpitch]; exact hclamp.2)
    rw [hstep]
    refine ⟨this.1, this.2.1, ?_⟩
    rw [this.2.2, hyaw, List.map_cons, List.sum_cons]
    ring

/-- Witness for C4 at a concrete start state and input sequence. -/
theorem rotateSingleCamera_pitch_invariant_witness :
    -30 ≤ (applyRotations (CameraManager.new 20 3.5) [(90, 100), (-40, -200)]).userCameraState.pitch ∧
    (applyRotations (CameraManager.new 20 3.5) [(90, 100), (-40, -200)]).userCameraState.pitch ≤ 60 ∧
    (applyRotations (CameraManager.new 20 3.5) [(90, 100), (-40, -200)]).userCameraState.yaw =
      (CameraManager.new 20 3.5).userCameraState.yaw + ([((90 : ℚ), (100 : ℚ)), (-40, -200)].map Prod.fst).sum :=
  rotateSingleCamera_pitch_invariant (CameraManager.new 20 3.5)
    (by norm_num [CameraManager.new, setupSingleCamera, setupCameras,
      updateSingleCameraFromState])
    (by norm_num [CameraManager.new, setupSingleCamera, setupCameras,
      updateSingleCameraFromState])
    [(90, 100), (-40, -200)]

/-- Claim C2: recomputing the 4 quadrant cameras places camera i at position
target + distance · (sin(yaw_i)cos(pitch), sin(pitch), cos(yaw_i)cos(pitch)),
where in 'pepper-ghost' (CROSS_VIEW) mode the per-camera (yaw, roll) table
for back/front/left/right is (0,0), (180,180), (90,-90), (270,90), and in
'unified-front' (UNIFIED_FRONT) mode yaw = 180 for all four with roll
0, 180, -90, 90. -/
theorem setupCameras_tables_and_positions (m : CameraManager) :
    (setupCameras m).cameras.length = 4 ∧
    (m.quadrantMode = "pepper-ghost" →
      (setupCameras m).cameras.map (fun c => (c.config.yaw, c.config.roll)) =
        [(0, 0), (180, 180), (90, -90), (270, 90)]) ∧
    (m.quadrantMode = "unified-front" →
      (setupCameras m).cameras.map (fun c => (c.config.yaw, c.config.roll)) =
        [(180, 0), (180, 180), (180, -90), (180, 90)]) ∧
    (∀ c ∈ (setupCameras m).cameras,
      c.position Real.sin Real.cos Real.pi Rat.cast =
        ⟨(m.lookAtTarget.x : ℝ) + (m.distance : ℝ) *
            Real.sin (degToRad Real.pi (c.config.yaw : ℝ)) *
            Real.cos (degToRad Real.pi (m.userCameraState.pitch : ℝ)),
         (m.lookAtTarget.y : ℝ) + (m.distance : ℝ) *
            Real.sin (degToRad Real.pi (m.userCameraState.pitch : ℝ)),
         (m.lookAtTarget.z : ℝ) + (m.distance : ℝ) *
            Real.cos (degToRad Real.pi (c.config.yaw : ℝ)) *
            Real.cos (degToRad Real.pi (m.userCameraState.pitch : ℝ))⟩) := by
  refine ⟨?_, ?_, ?_, ?_⟩
  · rw [setupCameras_cameras, List.length_map, configsFor_length]
  · intro hmode
    rw [setupCameras_cameras, hmode]
    rfl
  · intro hmode
    rw [setupCameras_cameras, hmode]
    rfl
  · intro c hc
    rw [setupCameras_cameras] at hc
    obtain ⟨cfg, -, rfl⟩ := List.mem_map.mp hc
    rfl

/-- Witness for C2: the two mode hypotheses discharged at concrete states
(a fresh manager is in 'pepper-ghost' mode; after `setQuadrantMode` it is in
'unified-front' mode). -/
theorem setupCameras_tables_and_positions_witness :
    (setupCameras (CameraManager.new 20 3.5)).cameras.map
        (fun c => (c.config.yaw, c.config.roll)) =
      [(0, 0), (180, 180), (90, -90), (270, 90)] ∧
    (setupCameras ((setQuadrantMode (CameraManager.new 20 3.5) "unified-front").2)).cameras.map
        (fun c => (c.config.yaw, c.config.roll)) =
      [(180, 0), (180, 180), (180, -90), (180, 90)] :=
  ⟨(setupCameras_tables_and_positions (CameraManager.new 20 3.5)).2.1 rfl,
   (setupCameras_tables_and_positions _).2.2.1 (by rfl)⟩

/-- Case analysis of `setQuadrantMode`: shared between the C6 and C5
developments. -/
lemma setQuadrantMode_cases (m : CameraManager) (mode : String) :
    (mode ≠ "pepper-ghost" → mode ≠ "unified-front" →
      setQuadrantMode m mode = (false, m)) ∧
    (mode = m.quadrantMode → setQuadrantMode m mode = (false, m)) ∧
    ((mode = "pepper-ghost" ∨ mode = "unified-front") → mode ≠ m.quadrantMode →
      setQuadrantMode m mode = (true, setupCameras { m with quadrantMode := mode })) := by
  refine ⟨?_, ?_, ?_⟩
  · intro hp hu
    unfold setQuadrantMode
    rw [if_pos ⟨hp, hu⟩]
  · intro hsame
    unfold setQuadrantMode
    by_cases hval : mode ≠ "pepper-ghost" ∧ mode ≠ "unified-front"
    · rw [if_pos hval]
    · rw [if_neg hval, if_pos hsame.symm]
  · intro hval hdiff
    unfold setQuadrantMode
    have hnot : ¬(mode ≠ "pepper-ghost" ∧ mode ≠ "unified-front") := by
      rcases hval with h | h <;> simp [h]
    rw [if_neg hnot, if_neg (fun h => hdiff h.symm)]

/-- Claim C6: `setQuadrantMode(m)` returns false and leaves the whole state
(mode, cameras, everything) unchanged both when m equals the current mode
and when m is not one of the two valid mode strings; it returns true and
recomputes the cameras exactly when m is a valid mode different from the
current one. -/
theorem setQuadrantMode_validation (m : CameraManager) (mode : String) :
    (mode ≠ "pepper-ghost" → mode ≠ "unified-front" →
      setQuadrantMode m mode = (false, m)) ∧
    (mode = m.quadrantMode → setQuadrantMode m mode = (false, m)) ∧
    ((mode = "pepper-ghost" ∨ mode = "unified-front") → mode ≠ m.quadrantMode →
      setQuadrantMode m mode = (true, setupCameras { m with quadrantMode := mode })) :=
  setQuadrantMode_cases m mode

/-- Witness for C6: the spec scenario `setQuadrantMode('invalid-mode')`
returns false and leaves the state untouched; a valid different mode
returns true. -/
theorem setQuadrantMode_validation_witness :
    setQuadrantMode (CameraManager.new 20 3.5) "invalid-mode" =
      (false, CameraManager.new 20 3.5) ∧
    setQuadrantMode (CameraManager.new 20 3.5) "pepper-ghost" =
      (false, CameraManager.new 20 3.5) ∧
    setQuadrantMode (CameraManager.new 20 3.5) "unified-front" =
      (true, setupCameras { CameraManager.new 20 3.5 with quadrantMode := "unified-front" }) :=
  ⟨(setQuadrantMode_validation (CameraManager.new 20 3.5) "invalid-mode").1
      (by decide) (by decide),
   (setQuadrantMode_validation (CameraManager.new 20 3.5) "pepper-ghost").2.1 rfl,
   (setQuadrantMode_validation (CameraManager.new 20 3.5) "unified-front").2.2
      (Or.inr rfl) (by decide)⟩

/-- Claim C5: for every rig state whose quadrant cameras are in sync with
its mode, switching the quadrant mode from 'pepper-ghost' (CROSS_VIEW) to
'unified-front' (UNIFIED_FRONT) and then back restores the original 4
quadrant cameras' yaw and roll values exactly (round-trip identity). -/
theorem setQuadrantMode_roundtrip (m : CameraManager)
    (hmode : m.quadrantMode = "pepper-ghost")
    (hsync : m.cameras = (setupCameras m).cameras) :
    ((setQuadrantMode (setQuadrantMode m "unified-front").2 "pepper-ghost").2).cameras.map
        (fun c => (c.config.yaw, c.config.roll)) =
      m.cameras.map (fun c => (c.config.yaw, c.config.roll)) := by
  have h1 : setQuadrantMode m "unified-front" =
      (true, setupCameras { m with quadrantMode := "unified-front" }) :=
    (setQuadrantMode_cases m "unified-front").2.2 (Or.inr rfl)
      (by rw [hmode]; decide)
  have h2 : setQuadrantMode (setupCameras { m with quadrantMode := "unified-front" })
        "pepper-ghost" =
      (true, setupCameras { setupCameras { m with quadrantMode := "unified-front" } with
        quadrantMode := "pepper-ghost" }) :=
    (setQuadrantMode_cases _ "pepper-ghost").2.2 (Or.inl rfl)
      (by exact fun hco => (by decide : ("pepper-ghost" : String) ≠ "unified-front") hco)
  rw [h1, h2, hsync, setupCameras_cameras m, hmode]
  rfl

/-- Witness for C5 at a freshly constructed manager (mode 'pepper-ghost',
cameras in sync). -/
theorem setQuadrantMode_roundtrip_witness :
    ((setQuadrantMode (setQuadrantMode (CameraManager.new 20 3.5) "unified-front").2
        "pepper-ghost").2).cameras.map (fun c => (c.config.yaw, c.config.roll)) =
      (CameraManager.new 20 3.5).cameras.map (fun c => (c.config.yaw, c.config.roll)) :=
  setQuadrantMode_roundtrip (CameraManager.new 20 3.5) rfl rfl

/-- The render loop of `renderQuadrants` issues one draw per non-null
camera entry: the length of the zip/filterMap equals the number of
`isSome` entries of the camera array (when the viewport list is at least
as long). -/
lemma filterMap_zip_draw_length {α β : Type} :
    ∀ (vs : List β) (l : List (Option α)), l.length ≤ vs.length →
      ((vs.zip l).filterMap (fun vc => vc.2.map (fun c => (vc.1, c)))).length =
        (l.filter Option.isSome).length := by
  intro vs l
  induction l generalizing vs with
  | nil => simp
  | cons a l ih =>
    intro hlen
    cases vs with
    | nil => simp at hlen
    | cons v vs =>
      have hrec := ih vs (by simpa using hlen)
      cases a with
      | none => simpa [List.filterMap_cons, List.filter_cons] using hrec
      | some c => simpa [List.filterMap_cons, List.filter_cons] using hrec

/-- Amended claim C7: `renderQuadrants` fails with the explicit error
"Invalid scene or cameras for rendering" exactly when the scene is missing,
the camera array is missing, or the camera array's length is not 4; when
validation passes it issues one draw per non-null camera entry — so all 4
viewports are rendered when all 4 entries are non-null, but an array of
length 4 containing a null entry passes validation and that entry's
viewport is silently skipped. -/
theorem renderQuadrants_validation {α : Type} (scene : Option Unit)
    (cams : List (Option α)) (w h : ℚ) :
    (renderQuadrants (α := α) none (some cams) w h =
      Except.error "Invalid scene or cameras for rendering") ∧
    (renderQuadrants (α := α) scene none w h =
      Except.error "Invalid scene or cameras for rendering") ∧
    (cams.length ≠ 4 → renderQuadrants (some ()) (some cams) w h =
      Except.error "Invalid scene or cameras for rendering") ∧
    (cams.length = 4 → ∃ draws,
      renderQuadrants (some ()) (some cams) w h = Except.ok draws ∧
      draws.length = (cams.filter Option.isSome).length) := by
  refine ⟨rfl, by cases scene <;> rfl, ?_, ?_⟩
  · intro hne
    exact if_neg hne
  · intro hlen
    refine ⟨_, if_pos hlen, ?_⟩
    exact filterMap_zip_draw_length (computeQuadrantViewports w h) cams
      (by rw [hlen]; rfl)

/-- Witness for the amended C7 theorem: a well-formed call (scene present,
4 non-null cameras) renders exactly 4 viewports. -/
theorem renderQuadrants_validation_witness :
    (renderQuadrants (some ()) (some [some 0, some 1, some 2, (some 3 : Option ℕ)])
      800 600).toOption.map List.length = some 4 ∧
    renderQuadrants (α := ℕ) (some ()) (some [some 0])
      800 600 = Except.error "Invalid scene or cameras for rendering" := by
  constructor
  · obtain ⟨draws, hok, hlen⟩ :=
      (renderQuadrants_validation (some ()) [some 0, some 1, some 2, (some 3 : Option ℕ)]
        800 600).2.2.2 rfl
    rw [hok]
    exact congrArg some (hlen.trans (by rfl))
  · exact (renderQuadrants_validation (some ()) [(some 0 : Option ℕ)] 800 600).2.2.1
      (by decide)

/-- Counterexample for claim C7 as stated: a camera array of length 4 whose
fourth entry is null passes validation (no error is raised: the result is
`ok`) yet only 3 viewports are drawn — the render is silently short one
viewport. -/
theorem renderQuadrants_silent_skip_cex :
    (renderQuadrants (some ()) (some [some 0, some 1, some 2, (none : Option ℕ)])
        800 600).isOk = true ∧
    (renderQuadrants (some ()) (some [some 0, some 1, some 2, (none : Option ℕ)])
        800 600).toOption.map List.length = some 3 :=
  ⟨rfl, rfl⟩

/-- The spherical-to-Cartesian placement of `setupCameras` /
`updateSingleCameraFromState` puts the camera at squared distance
`distance²` from the target, by sin² + cos² = 1. -/
lemma sqDist_sphericalPosition (target : Vec3 ℝ) (d yawDeg pitchDeg : ℝ) :
    sqDist (sphericalPosition Real.sin Real.cos Real.pi target d yawDeg pitchDeg)
      target = d ^ 2 := by
  simp only [sphericalPosition, sqDist, degToRad]
  have h1 := Real.sin_sq_add_cos_sq (yawDeg * Real.pi / 180)
  have h2 := Real.sin_sq_add_cos_sq (pitchDeg * Real.pi / 180)
  linear_combination (d ^ 2 * Real.cos (pitchDeg * Real.pi / 180) ^ 2) * h1 + d ^ 2 * h2

/-- Euclidean distance of a spherically placed camera from its target is
exactly the (nonnegative) distance parameter. -/
lemma sqrt_sqDist_sphericalPosition (target : Vec3 ℝ) (d yawDeg pitchDeg : ℝ)
    (hd : 0 ≤ d) :
    Real.sqrt (sqDist
      (sphericalPosition Real.sin Real.cos Real.pi target d yawDeg pitchDeg) target) = d := by
  rw [sqDist_sphericalPosition, Real.sqrt_sq hd]

/-- Claim C3: for every d in (0, 1000], calling `updateDistance(d)` and then
`getCameras()` yields 4 quadrant cameras whose positions are each at
Euclidean distance exactly d from `lookAtTarget`. -/
theorem updateDistance_camera_distances (m : CameraManager) (d : ℚ)
    (h0 : 0 < d) (h1 : d ≤ 1000) :
    (getCameras (updateDistance m d)).length = 4 ∧
    ∀ c ∈ getCameras (updateDistance m d),
      Real.sqrt (sqDist (c.position Real.sin Real.cos Real.pi Rat.cast)
        ((updateDistance m d).lookAtTarget.map Rat.cast)) = (d : ℝ) := by
  constructor
  · show (updateDistance m d).cameras.length = 4
    simp only [updateDistance, updateSingleCameraFromState_cameras, setupCameras_cameras,
      List.length_map]
    exact configsFor_length _
  · intro c hc
    show Real.sqrt (sqDist (c.position Real.sin Real.cos Real.pi Rat.cast)
        ((updateDistance m d).lookAtTarget.map Rat.cast)) = (d : ℝ)
    have htarget : (updateDistance m d).lookAtTarget = m.lookAtTarget := by
      simp [updateDistance]
    simp only [getCameras, updateDistance, updateSingleCameraFromState_cameras,
      setupCameras_cameras, List.mem_map] at hc
    obtain ⟨cfg, -, rfl⟩ := hc
    rw [htarget]
    exact sqrt_sqDist_sphericalPosition _ _ _ _
      (by exact_mod_cast h0.le)

/-- Witness for C3 at d = 5 on a fresh manager. -/
theorem updateDistance_camera_distances_witness :
    (getCameras (updateDistance (CameraManager.new 20 3.5) 5)).length = 4 :=
  (updateDistance_camera_distances (CameraManager.new 20 3.5) 5
    (by norm_num) (by norm_num)).1

/-- Claim C10: after construction with initial distance d0, the single orbit
camera is placed at distance 1.7·d0 from the look-at target (and
`userCameraState.distance` is overwritten to 1.7·d0) while the 4 quadrant
cameras sit at distance d0; after a later `updateDistance(d)` call the
orbit camera and the quadrant cameras are all at the same distance d. -/
theorem new_and_updateDistance_distances (p0 d0 d : ℚ) (h0 : 0 < d0) (hd : 0 < d) :
    ((CameraManager.new p0 d0).userCameraState.distance = 1.7 * d0) ∧
    (∀ sc, (CameraManager.new p0 d0).singleCamera = some sc →
      Real.sqrt (sqDist (sc.position Real.sin Real.cos Real.pi Rat.cast)
        ((CameraManager.new p0 d0).lookAtTarget.map Rat.cast)) = ((1.7 * d0 : ℚ) : ℝ)) ∧
    (∀ c ∈ (CameraManager.new p0 d0).cameras,
      Real.sqrt (sqDist (c.position Real.sin Real.cos Real.pi Rat.cast)
        ((CameraManager.new p0 d0).lookAtTarget.map Rat.cast)) = (d0 : ℝ)) ∧
    (∀ sc, (updateDistance (CameraManager.new p0 d0) d).singleCamera = some sc →
      Real.sqrt (sqDist (sc.position Real.sin Real.cos Real.pi Rat.cast)
        ((updateDistance (CameraManager.new p0 d0) d).lookAtTarget.map Rat.cast)) = (d : ℝ)) ∧
    (∀ c ∈ (updateDistance (CameraManager.new p0 d0) d).cameras,
      Real.sqrt (sqDist (c.position Real.sin Real.cos Real.pi Rat.cast)
        ((updateDistance (CameraManager.new p0 d0) d).lookAtTarget.map Rat.cast)) = (d : ℝ)) := by
  have h17 : (0 : ℚ) ≤ 1.7 * d0 := by positivity
  refine ⟨?_, ?_, ?_, ?_, ?_⟩
  · show d0 * 1.7 = 1.7 * d0
    ring
  · intro sc hsc
    have : sc = ⟨p0, 0, d0 * 1.7, ⟨0, 0, 0⟩⟩ := by
      have hform : (CameraManager.new p0 d0).singleCamera =
          some ⟨p0, 0, d0 * 1.7, ⟨0, 0, 0⟩⟩ := rfl
      rw [hform] at hsc
      exact (Option.some.injEq _ _ ▸ hsc).symm
    subst this
    have htar : (CameraManager.new p0 d0).lookAtTarget = ⟨0, 0, 0⟩ := rfl
    rw [htar]
    have := sqrt_sqDist_sphericalPosition ((Vec3.map Rat.cast ⟨0, 0, 0⟩ : Vec3 ℝ))
      ((d0 * 1.7 : ℚ) : ℝ) ((0 : ℚ) : ℝ) ((p0 : ℚ) : ℝ)
      (by exact_mod_cast (by positivity : (0:ℚ) ≤ d0 * 1.7))
    rw [show ((1.7 * d0 : ℚ) : ℝ) = ((d0 * 1.7 : ℚ) : ℝ) by push_cast; ring]
    exact this
  · intro c hc
    have hcam : (CameraManager.new p0 d0).cameras =
        crossViewConfigs.map (fun cfg => ⟨cfg, p0, d0, ⟨0, 0, 0⟩⟩) := rfl
    rw [hcam] at hc
    obtain ⟨cfg, -, rfl⟩ := List.mem_map.mp hc
    exact sqrt_sqDist_sphericalPosition _ _ _ _ (by exact_mod_cast h0.le)
  · intro sc hsc
    have hform : (updateDistance (CameraManager.new p0 d0) d).singleCamera =
        some ⟨p0, 0, d, ⟨0, 0, 0⟩⟩ := rfl
    rw [hform] at hsc
    have : sc = ⟨p0, 0, d, ⟨0, 0, 0⟩⟩ := (Option.some.injEq _ _ ▸ hsc).symm
    subst this
    exact sqrt_sqDist_sphericalPosition _ _ _ _ (by exact_mod_cast hd.le)
  · intro c hc
    simp only [updateDistance, updateSingleCameraFromState_cameras, setupCameras_cameras,
      List.mem_map] at hc
    obtain ⟨cfg, -, rfl⟩ := hc
    exact sqrt_sqDist_sphericalPosition _ _ _ _ (by exact_mod_cast hd.le)

/-- Witness for C10 at p0 = 20, d0 = 3.5, d = 7. -/
theorem new_and_updateDistance_distances_witness :
    (CameraManager.new 20 3.5).userCameraState.distance = 1.7 * 3.5 :=
  (new_and_updateDistance_distances 20 3.5 7 (by norm_num) (by norm_num)).1

/-- Witness for the amended C8 theorem at the non-positive input -1:
the value is stored verbatim. -/
theorem updateDistance_no_validation_witness :
    (updateDistance (CameraManager.new 20 3.5) (-1)).userCameraState.distance = -1 :=
  (updateDistance_no_validation (CameraManager.new 20 3.5) (-1)).2.1
